import Mathlib

/-!
# demo_yolov4.cpp : coordinate rescaling, clipping and record export

A shallow embedding of the logic of `demo_yolov4.cpp` that is original to the
repository.  `float` values are read as rationals (exact arithmetic), `int`
values as integers.  The inference engine, `cv::imread` and the stream
formatting of floats are parameters of the model (`Env`).
-/

namespace YoloDemo

/-! ## Data model -/

/-- The engine-native `vitis::ai::YOLOv3Result::BoundingBox`: a label, a score
and a box normalised to the input image. -/
structure BoundingBox where
  label : Int
  score : ℚ
  x : ℚ
  y : ℚ
  width : ℚ
  height : ℚ
deriving DecidableEq, Repr

/-- The engine-native `vitis::ai::YOLOv3Result` of one batch entry. -/
structure YOLOv3Result where
  width : Int
  height : Int
  bboxes : List BoundingBox
deriving DecidableEq, Repr

/-- `YoloRunner::bbox` (fields in declaration order). -/
structure bbox where
  label : Int
  xmin : ℚ
  ymin : ℚ
  width : ℚ
  height : ℚ
  score : ℚ
deriving DecidableEq, Repr

/-- The constructor `bbox(yolobbox, img_width, img_height)`, lines 42-50. -/
def bbox.ofYolo (yolobbox : BoundingBox) (img_width img_height : ℚ) : bbox :=
  { label := yolobbox.label
    score := yolobbox.score
    xmin := yolobbox.x * img_width
    ymin := yolobbox.y * img_height
    width := yolobbox.width * img_width
    height := yolobbox.height * img_height }

/-! ## Clipping (lines 130-133 of `main`) -/

/-- `std::max(a, b)`, which is `(a < b) ? b : a`. -/
def stdMax (a b : ℚ) : ℚ := if a < b then b else a

/-- `std::min(a, b)`, which is `(b < a) ? b : a`. -/
def stdMin (a b : ℚ) : ℚ := if b < a then b else a

/-- The four locals `xmin`, `ymin`, `xmax`, `ymax` of the loop body of `main`. -/
structure Clipped where
  xmin : ℚ
  ymin : ℚ
  xmax : ℚ
  ymax : ℚ
deriving DecidableEq, Repr

/-- Lines 130-133: the clipping of one box against an image of `cols` columns
and `rows` rows. -/
def clipToImage (box : bbox) (cols rows : Int) : Clipped :=
  { xmin := stdMax 0 box.xmin
    ymin := stdMax 0 box.ymin
    xmax := stdMin (box.xmin + box.width) ((cols : ℚ) - 1)
    ymax := stdMin (box.ymin + box.height) ((rows : ℚ) - 1) }

/-! ## External collaborators -/

/-- `cv::Size`. -/
structure Size where
  width : Int
  height : Int
deriving DecidableEq, Repr

/-- `cv::Point`, with `int` coordinates. -/
structure Point where
  x : Int
  y : Int
deriving DecidableEq, Repr

/-- One call `rectangle(img, pt1, pt2, Scalar(0, 255, 0), 3, 1, 0)`; colour,
thickness, line type and shift are the constants of line 136. -/
structure Rectangle where
  pt1 : Point
  pt2 : Point
deriving DecidableEq, Repr

/-- `cv::Mat`, as far as the program observes it: its size, its pixel payload
(an uninterpreted token) and the rectangles drawn on it, oldest first. -/
structure Mat where
  cols : Int
  rows : Int
  data : Nat
  drawn : List Rectangle
deriving DecidableEq, Repr

/-- `YoloRunner`: the parsed configuration (kept as its text), the model file
the task was created from, and the input size of the model. -/
structure YoloRunner where
  modelconfig : String
  modelfile : String
  model_input_size : Size
deriving DecidableEq, Repr

/-- Everything the program takes from outside: the file system, the protobuf
text parser, the DPU task, OpenCV and the formatting of floats. -/
structure Env where
  /-- `readFile(filename)`. -/
  readFile : String → String
  /-- The flag returned by `TextFormat::ParseFromString`. -/
  ParseFromString : String → Bool
  /-- Width and height of `getInputTensor(0u)[0]` of the task of a model file. -/
  inputTensorSize : String → Size
  /-- `cv::imread`. -/
  imread : String → Mat
  /-- `cv::resize(img, resized_img, size)`. -/
  resize : Mat → Size → Mat
  /-- `setImageRGB(inputs); run(0); getOutputTensor(0u); yolov3_post_process(
  input_tensor, output_tensor, modelconfig, input_cols, input_rows)`. -/
  yolov3_post_process : YoloRunner → List Mat → List Int → List Int → List YOLOv3Result
  /-- `operator<<` of an output stream on a `float`. -/
  showFloat : ℚ → String
  /-- `std::to_string` on a `float`. -/
  floatToString : ℚ → String

/-! ## YoloRunner -/

/-- The constructor of `YoloRunner`, lines 53-67; `none` is the `abort()` of
line 58. -/
def YoloRunner.new (env : Env) (modelconfig_path modelfile_path : String) :
    Option YoloRunner :=
  let config_str := env.readFile modelconfig_path
  let ok := env.ParseFromString config_str
  if !ok then none
  else
    let sz := env.inputTensorSize modelfile_path
    some { modelconfig := config_str
           modelfile := modelfile_path
           model_input_size := { width := sz.width, height := sz.height } }

/-- `YoloRunner::Preprocess`, lines 68-72. -/
def YoloRunner.Preprocess (env : Env) (runner : YoloRunner) (img : Mat) : Mat :=
  env.resize img runner.model_input_size

/-- `YoloRunner::Run`, lines 73-90; `none` is the undefined `results[0]` of an
empty result vector. -/
def YoloRunner.Run (env : Env) (runner : YoloRunner) (img : Mat) : Option (List bbox) :=
  let resized_img := runner.Preprocess env img
  let input_cols := [img.cols]
  let input_rows := [img.rows]
  let inputs := [resized_img]
  let results := env.yolov3_post_process runner inputs input_cols input_rows
  match results.head? with
  | none => none
  | some result =>
    some (result.bboxes.foldl
      (fun bboxes yolobbox => bboxes ++ [bbox.ofYolo yolobbox img.cols img.rows]) [])

/-! ## bbox_to_map -/

/-- `std::map<string, string>`: the entries in ascending key order. -/
abbrev StdMap := List (String × String)

/-- `m[k] = v` on a `std::map`: overwrite the entry of `k` or insert it at its
place in key order. -/
def StdMap.assign : StdMap → String → String → StdMap
  | [], k, v => [(k, v)]
  | (k', v') :: rest, k, v =>
    if k < k' then (k, v) :: (k', v') :: rest
    else if k = k' then (k, v) :: rest
    else (k', v') :: StdMap.assign rest k v

/-- `m.find(k)` on a `std::map`, `none` for `m.end()`. -/
def StdMap.find (m : StdMap) (k : String) : Option String :=
  (List.find? (fun e => e.1 == k) m).map Prod.snd

/-- The keys of a `std::map`, in iteration order. -/
def StdMap.keys (m : StdMap) : List String := m.map Prod.fst

/-- `std::to_string` on an `int`: the decimal rendering. -/
def intToString (n : Int) : String := toString n

/-- `bbox_to_map`, lines 100-109. -/
def bbox_to_map (env : Env) (box : bbox) (frame_id : Int) : StdMap :=
  let res : StdMap := []
  let res := res.assign "frame_id" (intToString frame_id)
  let res := res.assign "prob" (env.floatToString box.score)
  let res := res.assign "x" (env.floatToString box.xmin)
  let res := res.assign "y" (env.floatToString box.ymin)
  let res := res.assign "width" (env.floatToString box.width)
  let res := res.assign "height" (env.floatToString box.height)
  res

/-! ## main -/

/-- The array `label_names` of line 126. -/
def label_names : List String :=
  ["person", "bicycle", "car", "motorbike", "aeroplane", "bus", "train", "truck", "boat",
   "traffic light", "fire hydrant", "stop sign", "parking meter", "bench", "bird", "cat",
   "dog", "horse", "sheep", "cow", "elephant", "bear", "zebra", "giraffe", "backpack",
   "umbrella", "handbag", "tie", "suitcase", "frisbee", "skis", "snowboard", "sports ball",
   "kite", "baseball bat", "baseball glove", "skateboard", "surfboard", "tennis racket",
   "bottle", "wine glass", "cup", "fork", "knife", "spoon", "bowl", "banana", "apple",
   "sandwich", "orange", "broccoli", "carrot", "hot dog", "pizza", "donut", "cake", "chair",
   "sofa", "pottedplant", "bed", "diningtable", "toilet", "tvmonitor", "laptop", "mouse",
   "remote", "keyboard", "cell phone", "microwave", "oven", "toaster", "sink", "refrigerator",
   "book", "clock", "vase", "scissors", "teddy bear", "hair drier", "toothbrush"]

/-- The array access `label_names[label]` of line 134 with an `int` index;
`none` is an access outside the array. -/
def labelName (label : Int) : Option String :=
  if 0 ≤ label then label_names.get? label.toNat else none

/-- Conversion of a `float` to the `int` coordinate of a `cv::Point`:
truncation toward zero. -/
def truncToInt (q : ℚ) : Int :=
  if 0 ≤ q then Rat.floor q else -Rat.floor (-q)

/-- `rectangle(img, pt1, pt2, Scalar(0, 255, 0), 3, 1, 0)`. -/
def rectangle (img : Mat) (pt1 pt2 : Point) : Mat :=
  { img with drawn := img.drawn ++ [{ pt1 := pt1, pt2 := pt2 }] }

/-- The body of the loop of lines 127-137 on standard output and the image;
`none` is a label outside `label_names`. -/
def loopBody (env : Env) (st : String × Mat) (box : bbox) : Option (String × Mat) :=
  let img := st.2
  let c := clipToImage box img.cols img.rows
  match labelName box.label with
  | none => none
  | some name =>
    some (st.1 ++ name ++ " " ++ env.showFloat box.score ++ " " ++ env.showFloat c.xmin
            ++ " " ++ env.showFloat c.xmax ++ " " ++ env.showFloat c.ymin ++ " "
            ++ env.showFloat c.ymax ++ "\n",
          rectangle img ⟨truncToInt c.xmin, truncToInt c.ymin⟩
            ⟨truncToInt c.xmax, truncToInt c.ymax⟩)

/-- The loop `for (auto& box : bboxes)` of lines 127-137. -/
def drawLoop (env : Env) : String × Mat → List bbox → Option (String × Mat)
  | st, [] => some st
  | st, box :: rest =>
    match loopBody env st box with
    | none => none
    | some st' => drawLoop env st' rest

/-- How a run of the program ends. -/
inductive Exit where
  | returned (code : Int)
  | aborted
  | undefined
deriving DecidableEq, Repr

/-- What a run of the program leaves behind: both streams, the number of
inference passes `task->run(0)`, the files written by `imwrite`, and how the
run ended. -/
structure Outcome where
  stdout : String
  stderr : String
  runs : Nat
  written : List (String × Mat)
  exit : Exit
deriving DecidableEq, Repr

/-- The usage line of line 113. -/
def usage : String :=
  "usage ./a.out config(.prototxt) modelfile(.xmodel) image(.jpg) image"

/-- `main`, lines 111-145, on `argv` (with `argc = argv.length`). -/
def main (env : Env) (argv : List String) : Outcome :=
  let err := if argv.length ≠ 5 then usage ++ "\n" else ""
  match argv.get? 1, argv.get? 2, argv.get? 3 with
  | some configfile, some modelfile, some img_or_video_file =>
    let out := configfile ++ " " ++ modelfile ++ " " ++ img_or_video_file
    match YoloRunner.new env configfile modelfile with
    | none =>
      { stdout := out, stderr := err ++ "Set parameters failed!" ++ "\n", runs := 0,
        written := [], exit := Exit.aborted }
    | some runner =>
      let out := out ++ "Model Initialize Done" ++ "\n"
      match argv.get? 4 with
      | none => { stdout := out, stderr := err, runs := 0, written := [], exit := Exit.undefined }
      | some img_or_video_mode =>
        if img_or_video_mode = "image" then
          let img := env.imread img_or_video_file
          match runner.Run env img with
          | none =>
            { stdout := out, stderr := err, runs := 1, written := [], exit := Exit.undefined }
          | some bboxes =>
            match drawLoop env (out, img) bboxes with
            | none =>
              { stdout := out, stderr := err, runs := 1, written := [],
                exit := Exit.undefined }
            | some (out, img) =>
              { stdout := out, stderr := err, runs := 1, written := [("result.jpg", img)],
                exit := Exit.returned 0 }
        else
          { stdout := out, stderr := err ++ "unknown mode :" ++ img_or_video_mode ++ "\n",
            runs := 0, written := [], exit := Exit.returned 0 }
  | _, _, _ =>
    { stdout := "", stderr := err, runs := 0, written := [], exit := Exit.undefined }

/-! ## Concrete environments -/

/-- A batch result with two proposals. -/
def sampleResult : YOLOv3Result :=
  { width := 416
    height := 416
    bboxes := [⟨0, 9 / 10, 1 / 4, 1 / 2, 1 / 8, 1 / 4⟩, ⟨16, 3 / 4, -1 / 10, 7 / 10, 1 / 2, 1 / 2⟩] }

/-- A concrete environment: every image is 640x480, the model input is
416x416 and the engine reports `sampleResult` for every image. -/
def sampleEnv : Env :=
  { readFile := fun _ => "model"
    ParseFromString := fun _ => true
    inputTensorSize := fun _ => ⟨416, 416⟩
    imread := fun _ => ⟨640, 480, 0, []⟩
    resize := fun img size => ⟨size.width, size.height, img.data, img.drawn⟩
    yolov3_post_process := fun _ _ _ _ => [sampleResult]
    showFloat := fun q => toString q
    floatToString := fun q => toString q }

/-- The runner that `YoloRunner.new` builds in `sampleEnv` and `quietEnv`. -/
def sampleRunner : YoloRunner :=
  { modelconfig := "model", modelfile := "yolov4.xmodel", model_input_size := ⟨416, 416⟩ }

/-! ## Helper lemmas -/

theorem stdMax_eq_max (a b : ℚ) : stdMax a b = max a b := by
  unfold stdMax
  split
  · next h => exact (max_eq_right (le_of_lt h)).symm
  · next h => exact (max_eq_left (not_lt.mp h)).symm

theorem foldl_push_eq_map {α β : Type} (f : α → β) (l : List α) (acc : List β) :
    l.foldl (fun acc x => acc ++ [f x]) acc = acc ++ l.map f := by
  induction l generalizing acc with
  | nil => simp
  | cons a t ih => simp [ih]

theorem Run_eq_map (env : Env) (runner : YoloRunner) (img : Mat) :
    runner.Run env img
      = (env.yolov3_post_process runner [env.resize img runner.model_input_size]
            [img.cols] [img.rows]).head?.map
          (fun result => result.bboxes.map (fun yb => bbox.ofYolo yb img.cols img.rows)) := by
  simp only [YoloRunner.Run, YoloRunner.Preprocess]
  generalize env.yolov3_post_process runner [env.resize img runner.model_input_size]
      [img.cols] [img.rows] = results
  cases results with
  | nil => rfl
  | cons first rest => simp [foldl_push_eq_map]

theorem labelName_isSome (label : Int) :
    (labelName label).isSome ↔ 0 ≤ label ∧ label < 80 := by
  unfold labelName
  split
  · next h =>
    rw [Option.isSome_iff_ne_none, List.get?_eq_getElem?, Ne, List.getElem?_eq_none_iff, not_le]
    have hlen : label_names.length = 80 := rfl
    rw [hlen]
    omega
  · next h => simp [h]

theorem drawLoop_isSome (env : Env) (bboxes : List bbox) (st : String × Mat)
    (h : ∀ b ∈ bboxes, 0 ≤ b.label ∧ b.label < 80) :
    ∃ st', drawLoop env st bboxes = some st' := by
  induction bboxes generalizing st with
  | nil => exact ⟨st, rfl⟩
  | cons b t ih =>
    have hb := (labelName_isSome b.label).2 (h b (List.mem_cons_self _ _))
    obtain ⟨name, hname⟩ := Option.isSome_iff_exists.1 hb
    have ht : ∀ b' ∈ t, 0 ≤ b'.label ∧ b'.label < 80 :=
      fun b' hb' => h b' (List.mem_cons_of_mem _ hb')
    simp only [drawLoop, loopBody, hname]
    exact ih _ ht

theorem main_exit_cases (env : Env) (argv : List String) :
    (main env argv).exit = Exit.returned 0 ∨ (main env argv).exit = Exit.aborted ∨
      (main env argv).exit = Exit.undefined := by
  unfold main
  simp only []
  repeat' split
  all_goals simp

theorem stdMin_eq_min (a b : ℚ) : stdMin a b = min a b := by
  unfold stdMin
  split
  · next h => exact (min_eq_right (le_of_lt h)).symm
  · next h => exact (min_eq_left (not_lt.mp h)).symm

/-! ## Clipping theorems -/

/-- C1: the clipping in `main` yields exactly `xmin = max(0, d.x_min)`,
`ymin = max(0, d.y_min)`, `xmax = min(d.x_min + d.width, image_width - 1)` and
`ymax = min(d.y_min + d.height, image_height - 1)`, and these are the values
that the loop body prints and, truncated to `int`, passes to `rectangle`. -/
theorem clipToImage_spec (d : bbox) (image_width image_height : Int) :
    ((clipToImage d image_width image_height).xmin = max 0 d.xmin ∧
      (clipToImage d image_width image_height).ymin = max 0 d.ymin ∧
      (clipToImage d image_width image_height).xmax
        = min (d.xmin + d.width) ((image_width : ℚ) - 1) ∧
      (clipToImage d image_width image_height).ymax
        = min (d.ymin + d.height) ((image_height : ℚ) - 1)) ∧
    (∀ (env : Env) (out : String) (img : Mat) (name : String),
      labelName d.label = some name →
      loopBody env (out, img) d
        = some (out ++ name ++ " " ++ env.showFloat d.score ++ " "
              ++ env.showFloat (max 0 d.xmin) ++ " "
              ++ env.showFloat (min (d.xmin + d.width) ((img.cols : ℚ) - 1)) ++ " "
              ++ env.showFloat (max 0 d.ymin) ++ " "
              ++ env.showFloat (min (d.ymin + d.height) ((img.rows : ℚ) - 1)) ++ "\n",
            rectangle img
              ⟨truncToInt (max 0 d.xmin), truncToInt (max 0 d.ymin)⟩
              ⟨truncToInt (min (d.xmin + d.width) ((img.cols : ℚ) - 1)),
                truncToInt (min (d.ymin + d.height) ((img.rows : ℚ) - 1))⟩)) := by
  constructor
  · simp only [clipToImage, stdMax_eq_max, stdMin_eq_min, and_self]
  · intro env out img name hname
    simp only [loopBody, hname, clipToImage, stdMax_eq_max, stdMin_eq_min]

/-- An instance of `clipToImage_spec`: the box `(-10, 20, 30, 40)` with label 0
on an empty 100x50 image. -/
theorem clipToImage_spec_witness :
    labelName 0 = some "person" ∧
    loopBody sampleEnv ("", ⟨100, 50, 0, []⟩) ⟨0, -10, 20, 30, 40, 1 / 2⟩
      = some ("" ++ "person" ++ " " ++ sampleEnv.showFloat (1 / 2) ++ " "
            ++ sampleEnv.showFloat (max 0 (-10)) ++ " "
            ++ sampleEnv.showFloat (min (-10 + 30) (((100 : Int) : ℚ) - 1)) ++ " "
            ++ sampleEnv.showFloat (max 0 20) ++ " "
            ++ sampleEnv.showFloat (min (20 + 40) (((50 : Int) : ℚ) - 1)) ++ "\n",
          rectangle ⟨100, 50, 0, []⟩
            ⟨truncToInt (max 0 (-10)), truncToInt (max 0 20)⟩
            ⟨truncToInt (min (-10 + 30) (((100 : Int) : ℚ) - 1)),
              truncToInt (min (20 + 40) (((50 : Int) : ℚ) - 1))⟩) :=
  ⟨rfl, (clipToImage_spec ⟨0, -10, 20, 30, 40, 1 / 2⟩ 100 50).2 sampleEnv ""
    ⟨100, 50, 0, []⟩ "person" rfl⟩

/-- C3: for a box that is already inside the image on an axis, clipping is the
identity on that axis. -/
theorem clipToImage_inbounds_id (d : bbox) (image_width image_height : Int) :
    (0 ≤ d.xmin → d.xmin + d.width ≤ (image_width : ℚ) - 1 →
      (clipToImage d image_width image_height).xmin = d.xmin ∧
      (clipToImage d image_width image_height).xmax = d.xmin + d.width) ∧
    (0 ≤ d.ymin → d.ymin + d.height ≤ (image_height : ℚ) - 1 →
      (clipToImage d image_width image_height).ymin = d.ymin ∧
      (clipToImage d image_width image_height).ymax = d.ymin + d.height) := by
  simp only [clipToImage, stdMax_eq_max, stdMin_eq_min]
  exact ⟨fun h0 h1 => ⟨max_eq_right h0, min_eq_left h1⟩,
    fun h0 h1 => ⟨max_eq_right h0, min_eq_left h1⟩⟩

/-- An instance of `clipToImage_inbounds_id`: the box `(10, 20, 30, 40)` on a
100x100 image is left as it is. -/
theorem clipToImage_inbounds_id_witness :
    (clipToImage ⟨0, 10, 20, 30, 40, 1⟩ 100 100).xmin = 10 ∧
    (clipToImage ⟨0, 10, 20, 30, 40, 1⟩ 100 100).xmax = 10 + 30 ∧
    (clipToImage ⟨0, 10, 20, 30, 40, 1⟩ 100 100).ymin = 20 ∧
    (clipToImage ⟨0, 10, 20, 30, 40, 1⟩ 100 100).ymax = 20 + 40 :=
  ⟨((clipToImage_inbounds_id ⟨0, 10, 20, 30, 40, 1⟩ 100 100).1
      (by norm_num) (by norm_num)).1,
   ((clipToImage_inbounds_id ⟨0, 10, 20, 30, 40, 1⟩ 100 100).1
      (by norm_num) (by norm_num)).2,
   ((clipToImage_inbounds_id ⟨0, 10, 20, 30, 40, 1⟩ 100 100).2
      (by norm_num) (by norm_num)).1,
   ((clipToImage_inbounds_id ⟨0, 10, 20, 30, 40, 1⟩ 100 100).2
      (by norm_num) (by norm_num)).2⟩

/-- C2, as stated, fails: on a 100x100 image the box with `xmin = 99.3`,
`ymin = -30`, `width = 1`, `height = 10` is clipped to `xmin = 99.3`, which is
right of the last column 99, and to `ymax = -20`, which is above row 0. -/
theorem clipToImage_not_within_image :
    (1 : Int) ≤ 100 ∧
    (clipToImage ⟨0, 993 / 10, -30, 1, 10, 1⟩ 100 100).xmin = 993 / 10 ∧
    ¬ ((clipToImage ⟨0, 993 / 10, -30, 1, 10, 1⟩ 100 100).xmin ≤ ((100 : Int) : ℚ) - 1) ∧
    (clipToImage ⟨0, 993 / 10, -30, 1, 10, 1⟩ 100 100).ymax = -20 ∧
    ¬ (0 ≤ (clipToImage ⟨0, 993 / 10, -30, 1, 10, 1⟩ 100 100).ymax) := by
  simp only [clipToImage, stdMax, stdMin]
  norm_num

/-- C2, amended: on an image with at least one column and one row the clipped
`xmin` and `ymin` are never negative and the clipped `xmax` and `ymax` never
exceed `image_width - 1` and `image_height - 1`; the other two bounds hold
exactly when the raw box allows them: `xmin <= image_width - 1` iff
`d.x_min <= image_width - 1`, `0 <= xmax` iff `0 <= d.x_min + d.width`, and
likewise for y. -/
theorem clipToImage_one_sided (d : bbox) (image_width image_height : Int)
    (hw : 1 ≤ image_width) (hh : 1 ≤ image_height) :
    (0 ≤ (clipToImage d image_width image_height).xmin ∧
      (clipToImage d image_width image_height).xmax ≤ (image_width : ℚ) - 1 ∧
      0 ≤ (clipToImage d image_width image_height).ymin ∧
      (clipToImage d image_width image_height).ymax ≤ (image_height : ℚ) - 1) ∧
    ((clipToImage d image_width image_height).xmin ≤ (image_width : ℚ) - 1
        ↔ d.xmin ≤ (image_width : ℚ) - 1) ∧
    (0 ≤ (clipToImage d image_width image_height).xmax ↔ 0 ≤ d.xmin + d.width) ∧
    ((clipToImage d image_width image_height).ymin ≤ (image_height : ℚ) - 1
        ↔ d.ymin ≤ (image_height : ℚ) - 1) ∧
    (0 ≤ (clipToImage d image_width image_height).ymax ↔ 0 ≤ d.ymin + d.height) := by
  have hw' : (0 : ℚ) ≤ (image_width : ℚ) - 1 := by
    have : (1 : ℚ) ≤ (image_width : ℚ) := by exact_mod_cast hw
    linarith
  have hh' : (0 : ℚ) ≤ (image_height : ℚ) - 1 := by
    have : (1 : ℚ) ≤ (image_height : ℚ) := by exact_mod_cast hh
    linarith
  simp only [clipToImage, stdMax_eq_max, stdMin_eq_min]
  refine ⟨⟨le_max_left _ _, min_le_right _ _, le_max_left _ _, min_le_right _ _⟩, ?_, ?_, ?_, ?_⟩
  · rw [max_le_iff]; exact ⟨fun h => h.2, fun h => ⟨hw', h⟩⟩
  · rw [le_min_iff]; exact ⟨fun h => h.1, fun h => ⟨h, hw'⟩⟩
  · rw [max_le_iff]; exact ⟨fun h => h.2, fun h => ⟨hh', h⟩⟩
  · rw [le_min_iff]; exact ⟨fun h => h.1, fun h => ⟨h, hh'⟩⟩

/-- An instance of `clipToImage_one_sided` on a 100x100 image. -/
theorem clipToImage_one_sided_witness :
    (1 : Int) ≤ 100 ∧ (1 : Int) ≤ 100 ∧
    0 ≤ (clipToImage ⟨0, 993 / 10, -30, 1, 10, 1⟩ 100 100).xmin ∧
    (clipToImage ⟨0, 993 / 10, -30, 1, 10, 1⟩ 100 100).xmax ≤ ((100 : Int) : ℚ) - 1 ∧
    0 ≤ (clipToImage ⟨0, 993 / 10, -30, 1, 10, 1⟩ 100 100).ymin ∧
    (clipToImage ⟨0, 993 / 10, -30, 1, 10, 1⟩ 100 100).ymax ≤ ((100 : Int) : ℚ) - 1 :=
  ⟨by decide, by decide,
    (clipToImage_one_sided ⟨0, 993 / 10, -30, 1, 10, 1⟩ 100 100 (by decide) (by decide)).1⟩

/-- C4: a box with non-negative origin that reaches or overhangs the right and
bottom edges is clipped to `(x_min, y_min, image_width - 1, image_height - 1)`. -/
theorem clipToImage_overhang (d : bbox) (image_width image_height : Int)
    (hx : 0 ≤ d.xmin) (hy : 0 ≤ d.ymin)
    (hxw : (image_width : ℚ) - 1 ≤ d.xmin + d.width)
    (hyh : (image_height : ℚ) - 1 ≤ d.ymin + d.height) :
    clipToImage d image_width image_height
      = ⟨d.xmin, d.ymin, (image_width : ℚ) - 1, (image_height : ℚ) - 1⟩ := by
  simp only [clipToImage, stdMax_eq_max, stdMin_eq_min, max_eq_right hx, max_eq_right hy,
    min_eq_right hxw, min_eq_right hyh]

/-- An instance of `clipToImage_overhang`: on a 100x100 image the box
`(90, 90, 20, 20)` clips to `(90, 90, 99, 99)`. -/
theorem clipToImage_overhang_witness :
    clipToImage ⟨0, 90, 90, 20, 20, 1⟩ 100 100 = ⟨90, 90, 99, 99⟩ :=
  (clipToImage_overhang ⟨0, 90, 90, 20, 20, 1⟩ 100 100 (by norm_num) (by norm_num)
    (by norm_num) (by norm_num)).trans (by norm_num)

/-- C5: a box whose origin is at or left of / above the image origin and whose
far corner stays inside the image is clipped to
`(0, 0, x_min + width, y_min + height)`; and `x_min = -5` with `width = 5` on
an image of width at least 1 gives `xmin = 0` and `xmax = 0`. -/
theorem clipToImage_origin_outside (d : bbox) (image_width image_height : Int) :
    (d.xmin ≤ 0 → d.ymin ≤ 0 → d.xmin + d.width ≤ (image_width : ℚ) - 1 →
      d.ymin + d.height ≤ (image_height : ℚ) - 1 →
      clipToImage d image_width image_height
        = ⟨0, 0, d.xmin + d.width, d.ymin + d.height⟩) ∧
    (d.xmin = -5 → d.width = 5 → 1 ≤ image_width →
      (clipToImage d image_width image_height).xmin = 0 ∧
      (clipToImage d image_width image_height).xmax = 0) := by
  constructor
  · intro hx hy hxw hyh
    simp only [clipToImage, stdMax_eq_max, stdMin_eq_min, max_eq_left hx, max_eq_left hy,
      min_eq_left hxw, min_eq_left hyh]
  · intro hx hwd hw
    have hw' : (0 : ℚ) ≤ (image_width : ℚ) - 1 := by
      have : (1 : ℚ) ≤ (image_width : ℚ) := by exact_mod_cast hw
      linarith
    simp only [clipToImage, stdMax_eq_max, stdMin_eq_min, hx, hwd]
    constructor
    · exact max_eq_left (by norm_num)
    · rw [show (-5 : ℚ) + 5 = 0 by norm_num]
      exact min_eq_left hw'

/-- Instances of `clipToImage_origin_outside`: on a 50x50 image the box
`(-10, -10, 30, 30)` clips to `(0, 0, 20, 20)`, and `x_min = -5`, `width = 5`
on an image one column wide gives `xmin = xmax = 0`. -/
theorem clipToImage_origin_outside_witness :
    clipToImage ⟨0, -10, -10, 30, 30, 1⟩ 50 50 = ⟨0, 0, 20, 20⟩ ∧
    ((clipToImage ⟨0, -5, 7, 5, 3, 1⟩ 1 480).xmin = 0 ∧
      (clipToImage ⟨0, -5, 7, 5, 3, 1⟩ 1 480).xmax = 0) :=
  ⟨((clipToImage_origin_outside ⟨0, -10, -10, 30, 30, 1⟩ 50 50).1 (by norm_num) (by norm_num)
      (by norm_num) (by norm_num)).trans (by norm_num),
   (clipToImage_origin_outside ⟨0, -5, 7, 5, 3, 1⟩ 1 480).2 rfl rfl (by decide)⟩

/-! ## Conversion and `Run` -/

/-- C6: the `bbox` constructor multiplies the normalised x and width by the
image width and the normalised y and height by the image height, copies label
and score and clamps nothing; `Run` hands the resized image to the engine and
converts every proposal of the first batch result with the columns and rows of
the original image. -/
theorem bbox_ofYolo_pixel_space (env : Env) (runner : YoloRunner) (img : Mat)
    (b : BoundingBox) (W H : ℚ) :
    ((bbox.ofYolo b W H).xmin = b.x * W ∧ (bbox.ofYolo b W H).ymin = b.y * H ∧
      (bbox.ofYolo b W H).width = b.width * W ∧ (bbox.ofYolo b W H).height = b.height * H ∧
      (bbox.ofYolo b W H).label = b.label ∧ (bbox.ofYolo b W H).score = b.score) ∧
    runner.Run env img
      = (env.yolov3_post_process runner [env.resize img runner.model_input_size]
            [img.cols] [img.rows]).head?.map
          (fun result => result.bboxes.map (fun yb => bbox.ofYolo yb img.cols img.rows)) :=
  ⟨⟨rfl, rfl, rfl, rfl, rfl, rfl⟩, Run_eq_map env runner img⟩

/-- C8: `bbox_to_map` returns the mapping with exactly the six keys `frame_id`,
`prob`, `x`, `y`, `width`, `height`; `frame_id` maps to the decimal rendering
of the frame id, `prob` to the rendering of the score and the other four to the
renderings of the raw `xmin`, `ymin`, `width`, `height` of the detection; equal
inputs give equal mappings. -/
theorem bbox_to_map_spec (env : Env) (d : bbox) (frame_id : Int) :
    bbox_to_map env d frame_id
      = [("frame_id", intToString frame_id), ("height", env.floatToString d.height),
         ("prob", env.floatToString d.score), ("width", env.floatToString d.width),
         ("x", env.floatToString d.xmin), ("y", env.floatToString d.ymin)] ∧
    (bbox_to_map env d frame_id).keys = ["frame_id", "height", "prob", "width", "x", "y"] ∧
    (∀ k, ((bbox_to_map env d frame_id).find k).isSome
      ↔ k ∈ ["frame_id", "prob", "x", "y", "width", "height"]) ∧
    (bbox_to_map env d frame_id).find "frame_id" = some (intToString frame_id) ∧
    (bbox_to_map env d frame_id).find "prob" = some (env.floatToString d.score) ∧
    (bbox_to_map env d frame_id).find "x" = some (env.floatToString d.xmin) ∧
    (bbox_to_map env d frame_id).find "y" = some (env.floatToString d.ymin) ∧
    (bbox_to_map env d frame_id).find "width" = some (env.floatToString d.width) ∧
    (bbox_to_map env d frame_id).find "height" = some (env.floatToString d.height) ∧
    (∀ (d' : bbox) (frame_id' : Int), d' = d → frame_id' = frame_id →
      bbox_to_map env d' frame_id' = bbox_to_map env d frame_id) := by
  have hmap : bbox_to_map env d frame_id
      = [("frame_id", intToString frame_id), ("height", env.floatToString d.height),
         ("prob", env.floatToString d.score), ("width", env.floatToString d.width),
         ("x", env.floatToString d.xmin), ("y", env.floatToString d.ymin)] := by
    simp +decide [bbox_to_map, StdMap.assign, String.lt_iff_toList_lt]
  refine ⟨hmap, ?_, ?_, ?_, ?_, ?_, ?_, ?_, ?_, ?_⟩
  · rw [hmap]; rfl
  · intro k
    rw [hmap]
    simp only [StdMap.find, List.find?, List.mem_cons, List.mem_singleton, List.not_mem_nil,
      or_false]
    by_cases h1 : k = "frame_id"
    · subst h1; simp
    by_cases h2 : k = "height"
    · subst h2; simp
    by_cases h3 : k = "prob"
    · subst h3; simp
    by_cases h4 : k = "width"
    · subst h4; simp
    by_cases h5 : k = "x"
    · subst h5; simp
    by_cases h6 : k = "y"
    · subst h6; simp
    have e1 : ("frame_id" == k) = false := beq_eq_false_iff_ne.2 (fun h => h1 h.symm)
    have e2 : ("height" == k) = false := beq_eq_false_iff_ne.2 (fun h => h2 h.symm)
    have e3 : ("prob" == k) = false := beq_eq_false_iff_ne.2 (fun h => h3 h.symm)
    have e4 : ("width" == k) = false := beq_eq_false_iff_ne.2 (fun h => h4 h.symm)
    have e5 : ("x" == k) = false := beq_eq_false_iff_ne.2 (fun h => h5 h.symm)
    have e6 : ("y" == k) = false := beq_eq_false_iff_ne.2 (fun h => h6 h.symm)
    simp [e1, e2, e3, e4, e5, e6, h1, h2, h3, h4, h5, h6]
  · rw [hmap]; rfl
  · rw [hmap]; rfl
  · rw [hmap]; rfl
  · rw [hmap]; rfl
  · rw [hmap]; rfl
  · rw [hmap]; rfl
  · intro d' frame_id' hd hf
    rw [hd, hf]

/-! ## main -/

/-- C10: `label_names` has exactly 80 entries, the first `person` and the last
`toothbrush`; the lookup `label_names[label]` is defined exactly for
`0 <= label < 80`, and so is the loop body that prints a detection. -/
theorem label_names_spec :
    label_names.length = 80 ∧ label_names.head? = some "person" ∧
    label_names.getLast? = some "toothbrush" ∧
    (∀ label : Int, (labelName label).isSome ↔ 0 ≤ label ∧ label < 80) ∧
    (∀ (env : Env) (st : String × Mat) (d : bbox),
      (loopBody env st d).isSome ↔ 0 ≤ d.label ∧ d.label < 80) := by
  refine ⟨rfl, rfl, rfl, labelName_isSome, ?_⟩
  intro env st d
  rw [← labelName_isSome]
  unfold loopBody
  cases labelName d.label <;> simp

/-- C9: with four command-line arguments and a successfully initialised
engine, every mode other than `image` makes `main` write
`unknown mode :<mode>` to standard error, run no inference, write no image and
return 0; in mode `image`, when the engine returns a first batch result whose
labels are inside the label table, `main` runs one inference and returns 0;
and whenever `main` returns, on any arguments, the exit status is 0. -/
theorem main_exit_status (env : Env) (prog configfile modelfile imgfile mode : String)
    (runner : YoloRunner) (hinit : YoloRunner.new env configfile modelfile = some runner) :
    (mode ≠ "image" →
      main env [prog, configfile, modelfile, imgfile, mode]
        = { stdout := configfile ++ " " ++ modelfile ++ " " ++ imgfile
              ++ "Model Initialize Done" ++ "\n"
            stderr := "unknown mode :" ++ mode ++ "\n"
            runs := 0
            written := []
            exit := Exit.returned 0 }) ∧
    (∀ first rest,
      env.yolov3_post_process runner [runner.Preprocess env (env.imread imgfile)]
        [(env.imread imgfile).cols] [(env.imread imgfile).rows] = first :: rest →
      (∀ b ∈ first.bboxes, 0 ≤ b.label ∧ b.label < 80) →
      (main env [prog, configfile, modelfile, imgfile, "image"]).exit = Exit.returned 0 ∧
      (main env [prog, configfile, modelfile, imgfile, "image"]).runs = 1) ∧
    (∀ (argv : List String) (code : Int),
      (main env argv).exit = Exit.returned code → code = 0) := by
  refine ⟨?_, ?_, ?_⟩
  · intro hmode
    simp [main, hinit, hmode]
  · intro first rest hres hlabels
    have hrun : runner.Run env (env.imread imgfile)
        = some (first.bboxes.map
            (fun yb => bbox.ofYolo yb (env.imread imgfile).cols (env.imread imgfile).rows)) := by
      rw [Run_eq_map]
      unfold YoloRunner.Preprocess at hres
      rw [hres]
      rfl
    have hl : ∀ b ∈ first.bboxes.map
        (fun yb => bbox.ofYolo yb (env.imread imgfile).cols (env.imread imgfile).rows),
        0 ≤ b.label ∧ b.label < 80 := by
      intro b hb
      obtain ⟨yb, hyb, rfl⟩ := List.mem_map.1 hb
      exact hlabels yb hyb
    obtain ⟨st', hst'⟩ := drawLoop_isSome env _
      (configfile ++ " " ++ modelfile ++ " " ++ imgfile ++ "Model Initialize Done" ++ "\n",
        env.imread imgfile) hl
    simp [main, hinit, hrun, hst']
  · intro argv code hexit
    rcases main_exit_cases env argv with h | h | h
    · rw [h] at hexit
      exact (Exit.returned.inj hexit).symm
    · rw [h] at hexit
      exact Exit.noConfusion hexit
    · rw [h] at hexit
      exact Exit.noConfusion hexit

/-- Instances of `main_exit_status` in `sampleEnv`: mode `video` and mode
`image`. -/
theorem main_exit_status_witness :
    YoloRunner.new sampleEnv "yolov4.prototxt" "yolov4.xmodel" = some sampleRunner ∧
    "video" ≠ "image" ∧
    main sampleEnv ["./a.out", "yolov4.prototxt", "yolov4.xmodel", "dog.jpg", "video"]
      = { stdout := "yolov4.prototxt" ++ " " ++ "yolov4.xmodel" ++ " " ++ "dog.jpg"
            ++ "Model Initialize Done" ++ "\n"
          stderr := "unknown mode :" ++ "video" ++ "\n"
          runs := 0
          written := []
          exit := Exit.returned 0 } ∧
    (main sampleEnv ["./a.out", "yolov4.prototxt", "yolov4.xmodel", "dog.jpg", "image"]).exit
      = Exit.returned 0 :=
  ⟨rfl, by decide,
   (main_exit_status sampleEnv "./a.out" "yolov4.prototxt" "yolov4.xmodel" "dog.jpg" "video"
      sampleRunner rfl).1 (by decide),
   ((main_exit_status sampleEnv "./a.out" "yolov4.prototxt" "yolov4.xmodel" "dog.jpg" "video"
      sampleRunner rfl).2.1 sampleResult [] rfl (by decide)).1⟩

end YoloDemo
